import Mathlib

/-!
Verification of the flask-marcaciones client core against its design
specification.

The development shallowly embeds the two specified components:

* the Attendance Eligibility Engine, from `updateMarcationCards` /
  `reassignCardEvents` / `processQRCode` in the application script
  (src/unnamed/part_000), and
* the Offline Request Cache Router, from the service worker
  (src/static/sw.js): the fetch listener, the four caching strategies, and
  the install/activate cache-lifecycle listeners.

JavaScript objects are modelled with explicit `Option` fields; JS truthiness
of a string field is `truthy`; a JS exception is an `Except.error` or a
`HandlerResult.rejected`; the Cache Storage is an association list of named
stores, each an association list from request key to stored response.
-/

namespace Marcaciones

/-! ## Eligibility engine data model (app script) -/

/-- JS truthiness of an optional string field: `undefined`/absent and the
empty string are falsy, every other string is truthy. -/
def truthy : Option String → Bool
  | none => false
  | some s => !s.isEmpty

/-- The day's attendance record as delivered by `/api/attendance/today` and
consumed by `updateMarcationCards` (field names as in the source). -/
structure Attendance where
  horaentrada : Option String
  horaRefrigerioInicio : Option String
  horaRefrigerioFin : Option String
  horasalida : Option String
deriving DecidableEq, Repr

/-- State of one marcation card after `updateMarcationCards`: exactly one of
the CSS classes `completed` (with the time shown), `available`, or
`disabled` (with the status text shown) is applied. -/
inductive CardState where
  | completed (time : String)
  | available
  | disabled (statusText : String)
deriving DecidableEq, Repr

/-- Status text used by the source for the Blocked reason NoEntry. -/
def requiereIngreso : String := "Requiere ingreso"

/-- Status text used by the source for the Blocked reason NoBreakStart. -/
def requiereInicioRefrigerio : String := "Requiere inicio refrigerio"

/-- Status text used by the source for the Blocked reason BreakInProgress. -/
def termineRefrigerioPrimero : String := "Termine refrigerio primero"

/-- Status text used by the source for the generic Blocked reasons
(AlreadyExited / Unavailable). -/
def noDisponible : String := "No disponible"

/-- Branch of `updateMarcationCards` for the card `Ingreso` (Entry). -/
def evalIngreso (a : Attendance) : CardState :=
  if truthy a.horaentrada then CardState.completed (a.horaentrada.getD "")
  else CardState.available

/-- Branch of `updateMarcationCards` for the card `Inicio de Refrigerio`
(BreakStart). -/
def evalInicioRefrigerio (a : Attendance) : CardState :=
  if truthy a.horaRefrigerioInicio then
    CardState.completed (a.horaRefrigerioInicio.getD "")
  else if truthy a.horaentrada && !truthy a.horasalida then
    CardState.available
  else
    CardState.disabled (if truthy a.horaentrada then noDisponible else requiereIngreso)

/-- Branch of `updateMarcationCards` for the card `Salida de Refrigerio`
(BreakEnd). -/
def evalSalidaRefrigerio (a : Attendance) : CardState :=
  if truthy a.horaRefrigerioFin then
    CardState.completed (a.horaRefrigerioFin.getD "")
  else if truthy a.horaRefrigerioInicio && !truthy a.horasalida then
    CardState.available
  else
    CardState.disabled
      (if !truthy a.horaentrada then requiereIngreso
       else if !truthy a.horaRefrigerioInicio then requiereInicioRefrigerio
       else noDisponible)

/-- Branch of `updateMarcationCards` for the card `Salida` (Exit). -/
def evalSalida (a : Attendance) : CardState :=
  if truthy a.horasalida then
    CardState.completed (a.horasalida.getD "")
  else if truthy a.horaentrada && (!truthy a.horaRefrigerioInicio || truthy a.horaRefrigerioFin) then
    CardState.available
  else
    CardState.disabled
      (if !truthy a.horaentrada then requiereIngreso
       else if truthy a.horaRefrigerioInicio && !truthy a.horaRefrigerioFin then
         termineRefrigerioPrimero
       else noDisponible)

/-- The four card states computed by one run of `updateMarcationCards`. -/
structure CardStates where
  ingreso : CardState
  inicioRefrigerio : CardState
  salidaRefrigerio : CardState
  salida : CardState
deriving DecidableEq, Repr

/-- `updateMarcationCards(attendance)`: the argument may be `null`, in which
case the first property access (`attendance.horaentrada`) throws a
TypeError; otherwise the four cards are classified as in the source switch
statement. -/
def updateMarcationCards : Option Attendance → Except String CardStates
  | none => Except.error "TypeError: attendance is null"
  | some a =>
      Except.ok
        { ingreso := evalIngreso a
          inicioRefrigerio := evalInicioRefrigerio a
          salidaRefrigerio := evalSalidaRefrigerio a
          salida := evalSalida a }

/-! ## Submission guard (app script) -/

/-- In `reassignCardEvents` a click listener is attached to a card exactly
when the card carries the CSS class `available`; completed and disabled
cards get no listener (only a cursor style). -/
def hasClickListener : CardState → Bool
  | CardState.available => true
  | _ => false

/-- The mutable application state consulted by `processQRCode`. -/
structure AppState where
  currentMarcationType : Option String
  isProcessing : Bool
deriving DecidableEq, Repr

/-- Observable outcome of `processQRCode`: either an early local rejection
(message shown, no request sent) or a POST to `/api/attendance/mark` with
the given body fields. -/
inductive SubmitOutcome where
  | localReject (msg : String)
  | networkSubmit (qrCode : String) (marcationType : String)
deriving DecidableEq, Repr

/-- `processQRCode(qrCode)`: rejects locally when a submission is in flight
or no marcation type is selected; otherwise it issues the network request.
It performs no eligibility check of its own. -/
def processQRCode (s : AppState) (qrCode : String) : SubmitOutcome :=
  if s.isProcessing || !truthy s.currentMarcationType then
    SubmitOutcome.localReject "Selecciona un tipo de marcación primero"
  else
    SubmitOutcome.networkSubmit qrCode (s.currentMarcationType.getD "")

/-! ## Claims about the eligibility engine -/

/-- Claim C1, corrected. A null/undefined record makes `updateMarcationCards`
raise a TypeError instead of yielding the empty-record result, refuting the
claim as stated. -/
theorem c1_null_record_raises :
    updateMarcationCards none = Except.error "TypeError: attendance is null" := rfl

/-- Claim C1, amended: evaluation of every non-null record completes without
an exception, and a record whose four timestamp fields are all unset (absent
or empty, hence falsy) yields exactly the empty-record result:
Entry available, the other three blocked with the NoEntry status text. -/
theorem c1_eval (a : Attendance)
    (h1 : truthy a.horaentrada = false)
    (h2 : truthy a.horaRefrigerioInicio = false)
    (h3 : truthy a.horaRefrigerioFin = false)
    (h4 : truthy a.horasalida = false) :
    (∀ b : Attendance, (updateMarcationCards (some b)).isOk = true) ∧
    updateMarcationCards (some a) =
      Except.ok
        { ingreso := CardState.available
          inicioRefrigerio := CardState.disabled requiereIngreso
          salidaRefrigerio := CardState.disabled requiereIngreso
          salida := CardState.disabled requiereIngreso } := by
  refine ⟨fun b => rfl, ?_⟩
  simp [updateMarcationCards, evalIngreso, evalInicioRefrigerio, evalSalidaRefrigerio,
    evalSalida, h1, h2, h3, h4]

/-- Witness for the amended claim C1 at the fully empty record. -/
theorem c1_eval_witness :
    updateMarcationCards (some ⟨none, none, none, none⟩) =
      Except.ok
        { ingreso := CardState.available
          inicioRefrigerio := CardState.disabled requiereIngreso
          salidaRefrigerio := CardState.disabled requiereIngreso
          salida := CardState.disabled requiereIngreso } :=
  (c1_eval ⟨none, none, none, none⟩ rfl rfl rfl rfl).2

/-- Claim C5, corrected. With `entryTime` unset but `breakStartTime` set, the
BreakStart card evaluates to Completed, not Blocked(NoEntry), refuting the
claim as stated (it quantified over records with no restriction on the other
three fields). -/
theorem c5_break_start_counterexample :
    truthy (Attendance.mk none (some "12:00") none none).horaentrada = false ∧
    evalInicioRefrigerio (Attendance.mk none (some "12:00") none none) =
      CardState.completed "12:00" ∧
    CardState.completed "12:00" ≠ CardState.disabled requiereIngreso := by
  decide

/-- Claim C5, amended: for every record in which `entryTime` is unset and the
other three fields are unset as well (the only such records reachable under
the monotone-fill invariant), evaluation yields Entry available and
BreakStart, BreakEnd, Exit all blocked with the NoEntry status text. -/
theorem c5_no_entry (a : Attendance)
    (h1 : truthy a.horaentrada = false)
    (h2 : truthy a.horaRefrigerioInicio = false)
    (h3 : truthy a.horaRefrigerioFin = false)
    (h4 : truthy a.horasalida = false) :
    evalIngreso a = CardState.available ∧
    evalInicioRefrigerio a = CardState.disabled requiereIngreso ∧
    evalSalidaRefrigerio a = CardState.disabled requiereIngreso ∧
    evalSalida a = CardState.disabled requiereIngreso := by
  simp [evalIngreso, evalInicioRefrigerio, evalSalidaRefrigerio, evalSalida,
    h1, h2, h3, h4]

/-- Witness for the amended claim C5 at a record whose fields are absent or
empty strings (both falsy in the source). -/
theorem c5_no_entry_witness :
    evalIngreso ⟨none, some "", none, some ""⟩ = CardState.available ∧
    evalInicioRefrigerio ⟨none, some "", none, some ""⟩ =
      CardState.disabled requiereIngreso ∧
    evalSalidaRefrigerio ⟨none, some "", none, some ""⟩ =
      CardState.disabled requiereIngreso ∧
    evalSalida ⟨none, some "", none, some ""⟩ = CardState.disabled requiereIngreso :=
  c5_no_entry ⟨none, some "", none, some ""⟩ rfl rfl rfl rfl

/-- Claim C6, confirmed: with `entryTime` set and the other three fields
unset, evaluation yields Entry completed with the stored time, BreakStart and
Exit available, and BreakEnd blocked with the NoBreakStart status text. -/
theorem c6_entry_only (a : Attendance)
    (h1 : truthy a.horaentrada = true)
    (h2 : truthy a.horaRefrigerioInicio = false)
    (h3 : truthy a.horaRefrigerioFin = false)
    (h4 : truthy a.horasalida = false) :
    evalIngreso a = CardState.completed (a.horaentrada.getD "") ∧
    evalInicioRefrigerio a = CardState.available ∧
    evalSalida a = CardState.available ∧
    evalSalidaRefrigerio a = CardState.disabled requiereInicioRefrigerio := by
  simp [evalIngreso, evalInicioRefrigerio, evalSalidaRefrigerio, evalSalida,
    h1, h2, h3, h4]

/-- Witness for claim C6 at the Scenario B record. -/
theorem c6_entry_only_witness :
    evalIngreso ⟨some "08:00", none, none, none⟩ = CardState.completed "08:00" ∧
    evalInicioRefrigerio ⟨some "08:00", none, none, none⟩ = CardState.available ∧
    evalSalida ⟨some "08:00", none, none, none⟩ = CardState.available ∧
    evalSalidaRefrigerio ⟨some "08:00", none, none, none⟩ =
      CardState.disabled requiereInicioRefrigerio :=
  c6_entry_only ⟨some "08:00", none, none, none⟩ rfl rfl rfl rfl

/-! ## Claims about the submission guard -/

/-- Claim C9, corrected. With the empty record the Exit card is Blocked, yet
`processQRCode` with the type `Salida` already selected issues the network
request instead of rejecting locally: no eligibility check happens at
submission time, refuting the claim as stated. -/
theorem c9_counterexample :
    evalSalida ⟨none, none, none, none⟩ = CardState.disabled requiereIngreso ∧
    processQRCode ⟨some "Salida", false⟩ "EMP-1234" =
      SubmitOutcome.networkSubmit "EMP-1234" "Salida" := by
  decide

/-- Claim C9, amended: the client-side guard is structural, not a check in
the submission path. A card that is not Available receives no click listener
(so the UI cannot initiate a submission for a Blocked or Completed type),
while `processQRCode` itself consults no eligibility: whenever a type is
selected and no submission is in flight it issues the network request. -/
theorem c9_structural_guard (st : CardState) (s : AppState) (q : String)
    (hst : st ≠ CardState.available)
    (hp : s.isProcessing = false)
    (ht : truthy s.currentMarcationType = true) :
    hasClickListener st = false ∧
    processQRCode s q = SubmitOutcome.networkSubmit q (s.currentMarcationType.getD "") := by
  constructor
  · cases st with
    | completed t => rfl
    | available => exact absurd rfl hst
    | disabled m => rfl
  · simp [processQRCode, hp, ht]

/-- Witness for the amended claim C9 at a blocked card and a concrete app
state with the type `Salida` selected. -/
theorem c9_structural_guard_witness :
    hasClickListener (CardState.disabled requiereIngreso) = false ∧
    processQRCode ⟨some "Salida", false⟩ "EMP-99" =
      SubmitOutcome.networkSubmit "EMP-99" "Salida" :=
  c9_structural_guard (CardState.disabled requiereIngreso)
    ⟨some "Salida", false⟩ "EMP-99" (by decide) rfl rfl

/-! ## Offline Request Cache Router data model (service worker) -/

/-- A scalar field of a JSON body. -/
inductive JVal where
  | jbool (b : Bool)
  | jstr (s : String)
deriving DecidableEq, Repr

/-- Body of a response: plain text, or the field list of a stringified JSON
object (in source order). -/
inductive Body where
  | text (s : String)
  | json (fields : List (String × JVal))
deriving DecidableEq, Repr

/-- An HTTP response as observed by the worker: status code and body. -/
structure Response where
  status : Nat
  body : Body
deriving DecidableEq, Repr

/-- `response.ok`: status in the 2xx range. -/
def Response.ok (r : Response) : Bool := decide (200 ≤ r.status ∧ r.status < 300)

/-- Field lookup in a JSON response body. -/
def jsonField (r : Response) (k : String) : Option JVal :=
  match r.body with
  | Body.text _ => none
  | Body.json fields => (fields.find? (fun f => f.1 == k)).map (fun f => f.2)

/-- A request as classified by the fetch listener. `acceptHeader` is
`request.headers.get(accept)` (`none` models a null header), and
`bodyValidJson` records whether `request.clone().json()` would resolve. -/
structure Request where
  method : String
  origin : String
  pathname : String
  mode : String
  acceptHeader : Option String
  bodyValidJson : Bool
deriving DecidableEq, Repr

/-- One named store of the Cache Storage: request key to stored response. -/
abbrev CacheStore := List (String × Response)

/-- The whole Cache Storage: named stores in creation order. -/
abbrev CacheState := List (String × CacheStore)

/-- `CACHE_NAME` from the source. -/
def CACHE_NAME : String := "hispe-pulse-v1.0.0"

/-- `OFFLINE_CACHE` from the source. -/
def OFFLINE_CACHE : String := "hispe-offline-v1.0"

/-- `ESSENTIAL_FILES` from the source. -/
def ESSENTIAL_FILES : List String :=
  ["/", "/dashboard", "/static/css/style.css", "/static/js/app.js",
   "/manifest.json", "https://unpkg.com/html5-qrcode/minified/html5-qrcode.min.js"]

/-- `API_CACHE_PATTERNS` from the source. -/
def API_CACHE_PATTERNS : List String :=
  ["/api/user", "/api/attendance/today", "/api/health"]

/-- `cache.put` on one store: overwrite the entry for the key in place, or
append a new entry. -/
def entriesPut (es : CacheStore) (k : String) (v : Response) : CacheStore :=
  if es.any (fun e => e.1 == k) then
    es.map (fun e => if e.1 == k then (k, v) else e)
  else es ++ [(k, v)]

/-- `caches.open`: create the named store when it does not exist yet. -/
def cacheOpen (c : CacheState) (name : String) : CacheState :=
  if c.any (fun nc => nc.1 == name) then c else c ++ [(name, [])]

/-- `caches.open(name)` followed by `cache.put(k, v)`. -/
def cachePut (c : CacheState) (name k : String) (v : Response) : CacheState :=
  (cacheOpen c name).map (fun nc => if nc.1 == name then (name, entriesPut nc.2 k v) else nc)

/-- `caches.match`: search every store in creation order for the key. -/
def cachesMatch (c : CacheState) (k : String) : Option Response :=
  c.findSome? (fun nc => (nc.2.find? (fun e => e.1 == k)).map (fun e => e.2))

/-- Synthesized 503 of the `cacheFirst` catch branch. -/
def respRecursoNoDisponible : Response :=
  { status := 503, body := Body.text "Recurso no disponible offline" }

/-- Synthesized 503 of the `cacheFirstWithNetworkFallback` catch branch. -/
def respApiOffline : Response :=
  { status := 503,
    body := Body.json [("error", JVal.jstr "Funcionalidad no disponible offline")] }

/-- Synthesized 503 of the `networkOnlyWithFallback` catch branch. -/
def respMarkOffline : Response :=
  { status := 503,
    body := Body.json
      [("error", JVal.jstr "Sin conexión. La marcación no se puede procesar offline."),
       ("offline", JVal.jbool true)] }

/-- Synthesized 202 built by the catch branch of `handleOfflineMarking`
(field list exactly as in the source object literal). -/
def markPendingResponse : Response :=
  { status := 202,
    body := Body.json
      [("success", JVal.jbool true),
       ("message", JVal.jstr "📱 Marcación guardada. Se enviará cuando haya conexión."),
       ("offline", JVal.jbool true),
       ("pending", JVal.jbool true)] }

/-- Result of the promise a strategy hands to `event.respondWith`: it
resolves to a response, resolves to `undefined`, or rejects. -/
inductive HandlerResult where
  | resolved (r : Response)
  | resolvedUndefined
  | rejected (msg : String)
deriving DecidableEq, Repr

/-! ## The four strategies (service worker) -/

/-- `cacheFirst`: cached entry if present; else fetch, store on `ok`, return;
on fetch failure a synthesized 503. The network outcome of `fetch(request)`
is `net` (`none` models a rejected fetch). -/
def cacheFirst (c : CacheState) (net : Option Response) (url : String) :
    HandlerResult × CacheState :=
  match cachesMatch c url with
  | some cached => (HandlerResult.resolved cached, c)
  | none =>
    match net with
    | some resp =>
        (HandlerResult.resolved resp,
         if resp.ok then cachePut c CACHE_NAME url resp else c)
    | none => (HandlerResult.resolved respRecursoNoDisponible, c)

/-- `cacheFirstWithNetworkFallback`: cached entry if present, with a
fire-and-forget background refresh that stores an `ok` refetch and swallows
errors; else as `cacheFirst` but with a JSON 503 payload. -/
def cacheFirstWithNetworkFallback (c : CacheState) (net : Option Response) (url : String) :
    HandlerResult × CacheState :=
  match cachesMatch c url with
  | some cached =>
      (HandlerResult.resolved cached,
       match net with
       | some resp => if resp.ok then cachePut c CACHE_NAME url resp else c
       | none => c)
  | none =>
    match net with
    | some resp =>
        (HandlerResult.resolved resp,
         if resp.ok then cachePut c CACHE_NAME url resp else c)
    | none => (HandlerResult.resolved respApiOffline, c)

/-- `networkFirstWithCacheFallback`: an `ok` network response is stored and
returned; otherwise the cached entry for the request, else the cached
`/offline` page, else the promise resolves to `undefined`. -/
def networkFirstWithCacheFallback (c : CacheState) (net : Option Response) (url : String) :
    HandlerResult × CacheState :=
  match net with
  | some resp =>
    if resp.ok then (HandlerResult.resolved resp, cachePut c CACHE_NAME url resp)
    else
      match cachesMatch c url with
      | some cached => (HandlerResult.resolved cached, c)
      | none =>
        match cachesMatch c "/offline" with
        | some off => (HandlerResult.resolved off, c)
        | none => (HandlerResult.resolvedUndefined, c)
  | none =>
    match cachesMatch c url with
    | some cached => (HandlerResult.resolved cached, c)
    | none =>
      match cachesMatch c "/offline" with
      | some off => (HandlerResult.resolved off, c)
      | none => (HandlerResult.resolvedUndefined, c)

/-- `networkOnlyWithFallback`: return whatever `fetch` resolves to; on a
rejected fetch a synthesized JSON 503. -/
def networkOnlyWithFallback (c : CacheState) (net : Option Response) :
    HandlerResult × CacheState :=
  match net with
  | some resp => (HandlerResult.resolved resp, c)
  | none => (HandlerResult.resolved respMarkOffline, c)

/-- Catch branch of `handleOfflineMarking`: it first awaits
`request.clone().json()` (whose value is never used), so a request body that
is not valid JSON makes the handler promise reject; otherwise the synthesized
202 pending response is returned. -/
def offlineMarkingFallback (r : Request) : HandlerResult :=
  if r.bodyValidJson then HandlerResult.resolved markPendingResponse
  else HandlerResult.rejected "SyntaxError: unexpected token in JSON"

/-- `handleOfflineMarking`: an `ok` network response is returned as is; a
non-ok response or a rejected fetch falls into the catch branch. -/
def handleOfflineMarking (r : Request) (net : Option Response) : HandlerResult :=
  match net with
  | some resp => if resp.ok then HandlerResult.resolved resp else offlineMarkingFallback r
  | none => offlineMarkingFallback r

/-! ## The fetch listener (service worker) -/

/-- `listStarts s p` holds when the char list `p` is an initial segment of
`s` (structural helper, so that proofs can evaluate it). -/
def listStarts : List Char → List Char → Bool
  | _, [] => true
  | [], _ :: _ => false
  | c :: cs, p :: ps => c == p && listStarts cs ps

/-- JS `String.prototype.startsWith`. -/
def strStarts (s pat : String) : Bool := listStarts s.data pat.data

/-- `listIncludes pat s` holds when `pat` occurs contiguously in `s`. -/
def listIncludes (pat : List Char) : List Char → Bool
  | [] => pat.isEmpty
  | c :: cs => listStarts (c :: cs) pat || listIncludes pat cs

/-- JS `String.prototype.includes`. -/
def strIncludes (s sub : String) : Bool := listIncludes sub.data s.data

/-- `isNavigationRequest`: `mode === navigate`, or a GET whose accept header
includes `text/html`; calling `.includes` on a null accept header throws a
TypeError. -/
def isNavigationRequest (r : Request) : Except String Bool :=
  if r.mode == "navigate" then Except.ok true
  else if r.method == "GET" then
    match r.acceptHeader with
    | none => Except.error "TypeError: accept header is null"
    | some a => Except.ok (strIncludes a "text/html")
  else Except.ok false

/-- What the fetch listener did with an intercepted request. -/
inductive ListenerOutcome where
  | notHandled
  | listenerError (msg : String)
  | handled (h : HandlerResult)
deriving DecidableEq, Repr

/-- The fetch listener: cross-origin requests are left to the browser;
same-origin requests are classified exactly as in the source if/else chain
and the chosen strategy is run against the cache state `c` and the network
outcome `net`. -/
def routerStep (ownOrigin : String) (r : Request) (c : CacheState) (net : Option Response) :
    ListenerOutcome × CacheState :=
  if r.origin != ownOrigin then (ListenerOutcome.notHandled, c)
  else if r.method == "GET" then
    if strStarts r.pathname "/api/attendance/mark" then
      let (h, cNew) := networkOnlyWithFallback c net
      (ListenerOutcome.handled h, cNew)
    else if API_CACHE_PATTERNS.any (fun pat => strStarts r.pathname pat) then
      let (h, cNew) := cacheFirstWithNetworkFallback c net r.pathname
      (ListenerOutcome.handled h, cNew)
    else
      match isNavigationRequest r with
      | Except.error e => (ListenerOutcome.listenerError e, c)
      | Except.ok true =>
        let (h, cNew) := networkFirstWithCacheFallback c net r.pathname
        (ListenerOutcome.handled h, cNew)
      | Except.ok false =>
        let (h, cNew) := cacheFirst c net r.pathname
        (ListenerOutcome.handled h, cNew)
  else if r.method == "POST" && strStarts r.pathname "/api/attendance/mark" then
    (ListenerOutcome.handled (handleOfflineMarking r net), c)
  else (ListenerOutcome.notHandled, c)

/-! ## Claims about the Router strategies -/

/-- A well-formed offline POST to the submission endpoint. -/
def demoMarkRequest : Request :=
  { method := "POST", origin := "https://pulse.local",
    pathname := "/api/attendance/mark", mode := "cors",
    acceptHeader := some "application/json", bodyValidJson := true }

/-- Claim C2, corrected. The synthesized offline response carries no field
named `accepted`: the acceptance flag in the source is named `success`, so
the body is not `accepted: true, pending: true` as claimed. -/
theorem c2_missing_accepted_field :
    handleOfflineMarking demoMarkRequest none = HandlerResult.resolved markPendingResponse ∧
    jsonField markPendingResponse "accepted" = none := by
  decide

/-- Claim C2, amended: for every POST to the submission endpoint whose body
parses as JSON, a rejected fetch yields the synthesized status-202 response
whose JSON body carries `success: true` (the acceptance flag is named
`success`, not `accepted`) and `pending: true`, and no error is thrown; a
request body that is not valid JSON instead rejects (see C4). -/
theorem c2_offline_pending (r : Request) (h : r.bodyValidJson = true) :
    handleOfflineMarking r none = HandlerResult.resolved markPendingResponse ∧
    markPendingResponse.status = 202 ∧
    jsonField markPendingResponse "success" = some (JVal.jbool true) ∧
    jsonField markPendingResponse "pending" = some (JVal.jbool true) := by
  refine ⟨?_, by decide, by decide, by decide⟩
  simp [handleOfflineMarking, offlineMarkingFallback, h]

/-- Witness for the amended claim C2 at a concrete offline submission. -/
theorem c2_offline_pending_witness :
    handleOfflineMarking demoMarkRequest none = HandlerResult.resolved markPendingResponse :=
  (c2_offline_pending demoMarkRequest rfl).1

/-- A domain-level server rejection for the submission endpoint. -/
def serverRejection : Response :=
  { status := 400,
    body := Body.json [("error", JVal.jstr "Ya registró su ingreso el día de hoy")] }

/-- Claim C3, code bug: a reachable non-2xx server rejection is swallowed by
`handleOfflineMarking` (any non-ok response throws into the catch branch) and
replaced by the synthesized 202 pending response, so the structured error
body never reaches the caller even though the page script displays exactly
that body on non-ok responses. -/
theorem c3_rejection_swallowed :
    handleOfflineMarking demoMarkRequest (some serverRejection) =
      HandlerResult.resolved markPendingResponse ∧
    markPendingResponse ≠ serverRejection := by
  decide

/-- An offline submission whose body is not valid JSON. -/
def invalidJsonMarkRequest : Request :=
  { method := "POST", origin := "https://pulse.local",
    pathname := "/api/attendance/mark", mode := "cors",
    acceptHeader := some "application/json", bodyValidJson := false }

set_option maxRecDepth 4096 in
/-- Claim C4, code bug: the fetch listener hands this request to
`handleOfflineMarking`, whose catch branch awaits `request.clone().json()`
(never using the value), so with the network down and a non-JSON body the
handled promise rejects instead of resolving to a response. -/
theorem c4_unhandled_rejection :
    routerStep "https://pulse.local" invalidJsonMarkRequest [] none =
      (ListenerOutcome.handled
        (HandlerResult.rejected "SyntaxError: unexpected token in JSON"), []) := by
  decide

/-- Claim C7, confirmed: Cache-First returns a stored entry unchanged without
touching the network or the cache (in particular when the network is down,
with no error); on a miss it returns the fetched response and stores it
exactly when it is 2xx, and a rejected fetch yields the synthesized 503. -/
theorem c7_cache_first (c : CacheState) (net : Option Response) (url : String) :
    (∀ r, cachesMatch c url = some r →
      cacheFirst c net url = (HandlerResult.resolved r, c)) ∧
    (cachesMatch c url = none →
      (∀ nr, net = some nr →
        cacheFirst c net url =
          (HandlerResult.resolved nr, if nr.ok then cachePut c CACHE_NAME url nr else c)) ∧
      (net = none →
        cacheFirst c net url = (HandlerResult.resolved respRecursoNoDisponible, c))) := by
  refine ⟨fun r hr => ?_, fun hm => ⟨fun nr hn => ?_, fun hn => ?_⟩⟩ <;>
    simp_all [cacheFirst]

/-- A cache state already holding a static asset. -/
def demoAsset : Response := { status := 200, body := Body.text "css" }

/-- Demo cache holding one stored static asset. -/
def demoCache : CacheState := [(CACHE_NAME, [("/static/css/style.css", demoAsset)])]

/-- Witness for claim C7: the stored asset is served unchanged while the
network is unavailable. -/
theorem c7_cache_first_witness :
    cacheFirst demoCache none "/static/css/style.css" =
      (HandlerResult.resolved demoAsset, demoCache) :=
  (c7_cache_first demoCache none "/static/css/style.css").1 demoAsset (by decide)

/-- Claim C10, confirmed: a request whose origin differs from the worker
origin is not handled at all — no strategy runs, no response is synthesized,
and the cache state is unchanged. -/
theorem c10_cross_origin (ownOrigin : String) (r : Request) (c : CacheState)
    (net : Option Response) (h : r.origin ≠ ownOrigin) :
    routerStep ownOrigin r c net = (ListenerOutcome.notHandled, c) := by
  simp [routerStep, h]

/-- A cross-origin asset request. -/
def crossOriginRequest : Request :=
  { method := "GET", origin := "https://unpkg.com",
    pathname := "/html5-qrcode/minified/html5-qrcode.min.js", mode := "no-cors",
    acceptHeader := some "*/*", bodyValidJson := true }

/-- Witness for claim C10 at a concrete cross-origin request. -/
theorem c10_cross_origin_witness :
    routerStep "https://pulse.local" crossOriginRequest demoCache none =
      (ListenerOutcome.notHandled, demoCache) :=
  c10_cross_origin "https://pulse.local" crossOriginRequest demoCache none (by decide)

/-! ## Cache lifecycle: install and activate listeners (service worker) -/

/-- Offline page built by `getOfflineHTML` and stored at install time (the
inline styling of the page is presentation-only and abridged here). -/
def getOfflineHTML : String :=
  "<!DOCTYPE html><html lang=\"es\"><head><meta charset=\"UTF-8\"><title>Sin Conexión - HISPE PULSE</title></head><body><h1>Sin Conexión</h1><p>No hay conexión a internet. Algunas funciones de HISPE PULSE no están disponibles.</p></body></html>"

/-- The synthesized `/offline` entry: `new Response(getOfflineHTML(), ...)`
has status 200. -/
def offlinePageResponse : Response := { status := 200, body := Body.text getOfflineHTML }

/-- `cache.addAll(files)` fetches every file and rejects when any fetch
rejects or resolves non-ok; on success it yields one entry per file, in
order. `assets` is the network seen by the install step. -/
def addAllEntries (assets : String → Option Response) :
    List String → Option (List (String × Response))
  | [] => some []
  | f :: fs =>
    match assets f, addAllEntries assets fs with
    | some r, some rest => if r.ok then some ((f, r) :: rest) else none
    | _, _ => none

/-- Bulk insertion of fetched entries into a named store, as performed by
`caches.open(name)` followed by `cache.addAll`. -/
def cacheAddAll (c : CacheState) (name : String) (kvs : List (String × Response)) : CacheState :=
  kvs.foldl (fun acc kv => cachePut acc name kv.1 kv.2) (cacheOpen c name)

/-- The install listener: pre-populate `CACHE_NAME` with the essential files
and put the synthesized offline page into `OFFLINE_CACHE`; install fails
(`none`) when `cache.addAll` rejects. -/
def installStep (assets : String → Option Response) (c : CacheState) : Option CacheState :=
  match addAllEntries assets ESSENTIAL_FILES with
  | none => none
  | some kvs =>
      some (cachePut (cacheAddAll c CACHE_NAME kvs) OFFLINE_CACHE "/offline" offlinePageResponse)

/-- The activate listener: delete every store whose name is neither
`CACHE_NAME` nor `OFFLINE_CACHE`. -/
def activateStep (c : CacheState) : CacheState :=
  c.filter (fun nc => nc.1 == CACHE_NAME || nc.1 == OFFLINE_CACHE)

/-! ### Helper lemmas about the cache-store operations -/

/-- A state holding no store of the given name reports `any` false for it. -/
theorem any_name_eq_false (c : CacheState) (name : String)
    (h : ∀ nc ∈ c, nc.1 ≠ name) :
    c.any (fun nc => nc.1 == name) = false := by
  simp only [List.any_eq_false]
  intro nc hnc
  simpa using h nc hnc

/-- Opening a fresh name appends an empty store. -/
theorem cacheOpen_fresh (c : CacheState) (name : String)
    (h : ∀ nc ∈ c, nc.1 ≠ name) :
    cacheOpen c name = c ++ [(name, [])] := by
  simp [cacheOpen, any_name_eq_false c name h]

/-- Updating the named store leaves every other store untouched. -/
theorem map_update_fresh (d : CacheState) (name k : String) (v : Response)
    (h : ∀ nc ∈ d, nc.1 ≠ name) :
    d.map (fun nc => if nc.1 == name then (name, entriesPut nc.2 k v) else nc) = d := by
  induction d with
  | nil => rfl
  | cons x xs ih =>
    have hx : ¬((x.1 == name) = true) := by
      simpa using h x (List.mem_cons_self x xs)
    have hxs := ih (fun nc hnc => h nc (List.mem_cons_of_mem x hnc))
    simp only [List.map_cons]
    rw [if_neg hx, hxs]

/-- A put into a store appended at the tail of otherwise fresh stores only
rewrites that store. -/
theorem cachePut_fresh_append (c : CacheState) (name : String) (es : CacheStore)
    (k : String) (v : Response) (h : ∀ nc ∈ c, nc.1 ≠ name) :
    cachePut (c ++ [(name, es)]) name k v = c ++ [(name, entriesPut es k v)] := by
  have hopen : cacheOpen (c ++ [(name, es)]) name = c ++ [(name, es)] := by
    have hany : (c ++ [(name, es)]).any (fun nc => nc.1 == name) = true := by
      simp [List.any_append]
    simp [cacheOpen, hany]
  unfold cachePut
  rw [hopen, List.map_append, map_update_fresh c name k v h]
  simp

/-- A put under a name no existing store carries appends a singleton store. -/
theorem cachePut_fresh (d : CacheState) (name k : String) (v : Response)
    (h : ∀ nc ∈ d, nc.1 ≠ name) :
    cachePut d name k v = d ++ [(name, [(k, v)])] := by
  unfold cachePut
  rw [cacheOpen_fresh d name h, List.map_append, map_update_fresh d name k v h]
  simp [entriesPut]

/-- `cacheAddAll` under a fresh name appends one store holding the folded
entry insertions. -/
theorem cacheAddAll_fresh (c : CacheState) (name : String)
    (kvs : List (String × Response)) (h : ∀ nc ∈ c, nc.1 ≠ name) :
    cacheAddAll c name kvs =
      c ++ [(name, kvs.foldl (fun es kv => entriesPut es kv.1 kv.2) [])] := by
  unfold cacheAddAll
  rw [cacheOpen_fresh c name h]
  have H : ∀ (rest : List (String × Response)) (es : CacheStore),
      rest.foldl (fun acc kv => cachePut acc name kv.1 kv.2) (c ++ [(name, es)]) =
        c ++ [(name, rest.foldl (fun acc kv => entriesPut acc kv.1 kv.2) es)] := by
    intro rest
    induction rest with
    | nil => intro es; rfl
    | cons kv tl ih =>
      intro es
      simp only [List.foldl_cons]
      rw [cachePut_fresh_append c name es kv.1 kv.2 h]
      exact ih (entriesPut es kv.1 kv.2)
  exact H kvs []

/-- Folding entry insertions whose keys are fresh for the accumulator and
mutually distinct just appends the entries in order. -/
theorem foldl_entriesPut_append :
    ∀ (kvs : List (String × Response)) (acc : CacheStore),
      (∀ kv ∈ kvs, ∀ e ∈ acc, e.1 ≠ kv.1) →
      (kvs.map Prod.fst).Nodup →
      kvs.foldl (fun es kv => entriesPut es kv.1 kv.2) acc = acc ++ kvs := by
  intro kvs
  induction kvs with
  | nil => intro acc _ _; simp
  | cons kv tl ih =>
    intro acc hfresh hnodup
    simp only [List.map_cons, List.nodup_cons] at hnodup
    simp only [List.foldl_cons]
    have hput : entriesPut acc kv.1 kv.2 = acc ++ [kv] := by
      have hany : acc.any (fun e => e.1 == kv.1) = false := by
        simp only [List.any_eq_false]
        intro e he
        simpa using hfresh kv (List.mem_cons_self _ _) e he
      simp [entriesPut, hany]
    rw [hput, ih (acc ++ [kv]) ?_ hnodup.2]
    · simp
    · intro kv2 hkv2 e he
      rcases List.mem_append.mp he with h1 | h2
      · exact hfresh kv2 (List.mem_cons_of_mem _ hkv2) e h1
      · have he2 : e = kv := by simpa using h2
        subst he2
        intro heq
        exact hnodup.1 (heq ▸ List.mem_map_of_mem Prod.fst hkv2)

/-- The entries produced by `cache.addAll` are keyed by the file list. -/
theorem addAllEntries_keys (assets : String → Option Response) :
    ∀ (files : List String) (kvs : List (String × Response)),
      addAllEntries assets files = some kvs → kvs.map Prod.fst = files := by
  intro files
  induction files with
  | nil =>
    intro kvs h
    simp only [addAllEntries] at h
    cases h
    rfl
  | cons f fs ih =>
    intro kvs h
    simp only [addAllEntries] at h
    cases hf : assets f with
    | none => rw [hf] at h; simp at h
    | some r =>
      rw [hf] at h
      cases hrec : addAllEntries assets fs with
      | none => rw [hrec] at h; simp at h
      | some rest =>
        rw [hrec] at h
        by_cases hok : r.ok = true
        · simp only [hok, if_true] at h
          cases h
          simp [ih rest hrec]
        · simp only [Bool.not_eq_true] at hok
          simp [hok] at h

/-! ## Claim about the cache lifecycle -/

/-- Claim C8, confirmed: after a version bump (no prior store carries the
current identifiers) the install step followed by the activate step leaves
exactly the current generation — the `CACHE_NAME` store holding precisely
the fetched essential-file entries and the `OFFLINE_CACHE` store holding the
single synthesized offline page — and every other store has been deleted. -/
theorem c8_activation (c : CacheState) (assets : String → Option Response)
    (kvs : List (String × Response)) (cInstalled : CacheState)
    (hold : ∀ nc ∈ c, nc.1 ≠ CACHE_NAME ∧ nc.1 ≠ OFFLINE_CACHE)
    (hadd : addAllEntries assets ESSENTIAL_FILES = some kvs)
    (hinst : installStep assets c = some cInstalled) :
    activateStep cInstalled =
      [(CACHE_NAME, kvs), (OFFLINE_CACHE, [("/offline", offlinePageResponse)])] ∧
    kvs.map Prod.fst = ESSENTIAL_FILES := by
  have hkeys : kvs.map Prod.fst = ESSENTIAL_FILES :=
    addAllEntries_keys assets ESSENTIAL_FILES kvs hadd
  refine ⟨?_, hkeys⟩
  have hnodup : (kvs.map Prod.fst).Nodup := by
    rw [hkeys]; decide
  have hfold : kvs.foldl (fun es kv => entriesPut es kv.1 kv.2) [] = kvs := by
    have h := foldl_entriesPut_append kvs []
      (fun kv _ e he => absurd he (List.not_mem_nil e)) hnodup
    simpa using h
  have hfresh1 : ∀ nc ∈ c, nc.1 ≠ CACHE_NAME := fun nc hm => (hold nc hm).1
  have hca : cacheAddAll c CACHE_NAME kvs = c ++ [(CACHE_NAME, kvs)] := by
    rw [cacheAddAll_fresh c CACHE_NAME kvs hfresh1, hfold]
  have hfresh2 : ∀ nc ∈ c ++ [(CACHE_NAME, kvs)], nc.1 ≠ OFFLINE_CACHE := by
    intro nc hnc
    rcases List.mem_append.mp hnc with hm | hm
    · exact (hold nc hm).2
    · have : nc = (CACHE_NAME, kvs) := by simpa using hm
      subst this
      show CACHE_NAME ≠ OFFLINE_CACHE
      decide
  have hX : cInstalled =
      (c ++ [(CACHE_NAME, kvs)]) ++ [(OFFLINE_CACHE, [("/offline", offlinePageResponse)])] := by
    have h1 : installStep assets c =
        some (cachePut (cacheAddAll c CACHE_NAME kvs) OFFLINE_CACHE "/offline"
          offlinePageResponse) := by
      simp [installStep, hadd]
    rw [h1] at hinst
    have h2 := (Option.some.inj hinst).symm
    rw [hca, cachePut_fresh (c ++ [(CACHE_NAME, kvs)]) OFFLINE_CACHE "/offline"
      offlinePageResponse hfresh2] at h2
    exact h2
  have hfc : c.filter (fun nc => nc.1 == CACHE_NAME || nc.1 == OFFLINE_CACHE) = [] := by
    rw [List.filter_eq_nil_iff]
    intro nc hnc
    simp [(hold nc hnc).1, (hold nc hnc).2]
  rw [hX]
  unfold activateStep
  rw [List.filter_append, List.filter_append, hfc]
  simp

/-- A network that serves every essential file successfully. -/
def demoAssets : String → Option Response :=
  fun _ => some { status := 200, body := Body.text "asset" }

/-- A previous-generation cache state present before the version bump. -/
def demoOldState : CacheState :=
  [("hispe-pulse-v0.9.0", [("/", { status := 200, body := Body.text "old" })])]

set_option maxRecDepth 100000 in
/-- Witness for claim C8: concrete version bump over a previous-generation
store. -/
theorem c8_activation_witness :
    activateStep ((installStep demoAssets demoOldState).getD []) =
      [(CACHE_NAME, ESSENTIAL_FILES.map (fun f => (f, { status := 200, body := Body.text "asset" }))),
       (OFFLINE_CACHE, [("/offline", offlinePageResponse)])] :=
  (c8_activation demoOldState demoAssets
    (ESSENTIAL_FILES.map (fun f => (f, { status := 200, body := Body.text "asset" })))
    ((installStep demoAssets demoOldState).getD [])
    (by decide) (by decide) (by decide)).1

end Marcaciones
